import Mathlib

/-!
Shallow embedding of the gasless Safe relay client
(`src/app/contexts/SafeContext.tsx` and the dev-server relay plugin) of the
prediction-market trading app, together with proofs about its operations:
signature packing, multisend batching, poll-loop behaviour, deployment and
approval coordination, and error handling.

Byte strings are modelled as `List Nat` (one element per byte), addresses and
256-bit words as `Nat`, relay/network responses as explicit environment
records, and thrown JS exceptions as `Except Unit`.
-/

namespace SafeContext

/-! ## Byte-string helpers (model of solidityPack / hex utilities) -/

/-- Big-endian byte encoding of `n` into exactly `len` bytes, as
`ethers.utils.solidityPack` does for `uintN`/`address` values. -/
def natToBytesBE : Nat → Nat → List Nat
  | 0, _ => []
  | len + 1, n => natToBytesBE len (n / 256) ++ [n % 256]

/-- Big-endian interpretation of a byte list as a natural number. -/
def bytesToNat (bs : List Nat) : Nat :=
  bs.foldl (fun acc b => acc * 256 + b) 0

/-! ## Contract address constants (`ADDRESSES` and `SAFE_MULTISEND`) -/

def USDCe : Nat := 0x2791Bca1f2de4661ED88A30C99A7a9449Aa84174

def CTF : Nat := 0x4d97dcd97ec945f40cf65f87097ace5ea0476045

def CTF_EXCHANGE : Nat := 0x4bFb41d5B3570DeFd03C39a9A4D8dE6Bd8B8982E

def NEG_RISK_CTF_EXCHANGE : Nat := 0xC5d563A36AE78145C45a50134d48A1215220f80a

def NEG_RISK_ADAPTER : Nat := 0xd91E80cF2E7be2e162c6513ceD06f1dD0dA35296

def SAFE_MULTISEND : Nat := 0x40A2aCCbd92BCA938b02010E17A5b8929b49130D

/-! ## Signature packing (`approveAll`, lines 531-542)

`ethers.utils.splitSignature` yields `(r, s, v)`; the code shifts
`v ∈ {27, 28}` by `+4` and packs them with
`solidityPack(['uint256', 'uint256', 'uint8'], [r, s, v])`. -/

/-- The v-byte adjustment of `approveAll`: `if (v === 27 || v === 28) v += 4`. -/
def adjustV (v : Nat) : Nat :=
  if v = 27 ∨ v = 28 then v + 4 else v

/-- Model of the packed Gnosis signature
`solidityPack(['uint256','uint256','uint8'], [r, s, adjustedV])`. -/
def packSignature (r s v : Nat) : List Nat :=
  natToBytesBE 32 r ++ natToBytesBE 32 s ++ [adjustV v]

/-! ## Call descriptors and multisend batching (`createMultisendData`, `approveAll`) -/

/-- The call-descriptor objects built by `approveAll`
(`{ to, data, value, operation }`). `to` is an address, `data` a byte string,
`value` a uint256, `operation` a uint8 (0 = Call, 1 = DelegateCall). -/
structure CallDescriptor where
  to_ : Nat
  data : List Nat
  value : Nat
  operation : Nat
deriving DecidableEq

/-- Serialization of one descriptor inside the multisend payload:
`solidityPack(['uint8','address','uint256','uint256','bytes'],
[operation, to, value, dataLength, data])`. -/
def encodeMultisendTx (tx : CallDescriptor) : List Nat :=
  [tx.operation] ++ natToBytesBE 20 tx.to_ ++ natToBytesBE 32 tx.value ++
    natToBytesBE 32 tx.data.length ++ tx.data

/-- The `hexConcat` of the per-descriptor serializations, in order. -/
def packedMultisend (txs : List CallDescriptor) : List Nat :=
  (txs.map encodeMultisendTx).flatten

/-- First four bytes of keccak256 of the string multiSend(bytes):
the selector `0x8d80ff0a` prepended by `encodeFunctionData`. -/
def multiSendSelector : List Nat := [0x8d, 0x80, 0xff, 0x0a]

/-- Right-padding of a byte string with zeros to a multiple of 32 bytes, as in
ABI encoding of a dynamic `bytes` value. -/
def padRight32 (bs : List Nat) : List Nat :=
  bs ++ List.replicate ((32 - bs.length % 32) % 32) 0

/-- ABI encoding of a single dynamic `bytes` argument: a 32-byte offset (0x20),
the 32-byte length, then the payload padded to a 32-byte boundary. -/
def abiEncodeBytes (bs : List Nat) : List Nat :=
  natToBytesBE 32 32 ++ natToBytesBE 32 bs.length ++ padRight32 bs

/-- Model of `createMultisendData`: pack every descriptor, concatenate, and
wrap the result as `multiSend(bytes)` call data. -/
def createMultisendData (txs : List CallDescriptor) : List Nat :=
  multiSendSelector ++ abiEncodeBytes (packedMultisend txs)

/-- Inverse of the per-descriptor framing: repeatedly read the 85-byte header
(1-byte operation, 20-byte target, 32-byte value, 32-byte data length) and
then the announced number of data bytes. `fuel` bounds the number of
descriptors read. -/
def decodeMultisendPacked : Nat → List Nat → Option (List CallDescriptor)
  | _, [] => some []
  | 0, _ :: _ => none
  | fuel + 1, b :: tl =>
    if 85 ≤ (b :: tl).length then
      if 85 + bytesToNat (((b :: tl).drop 53).take 32) ≤ (b :: tl).length then
        match decodeMultisendPacked fuel
            ((b :: tl).drop (85 + bytesToNat (((b :: tl).drop 53).take 32))) with
        | some rest =>
            some ({ to_ := bytesToNat (((b :: tl).drop 1).take 20),
                    data := ((b :: tl).drop 85).take (bytesToNat (((b :: tl).drop 53).take 32)),
                    value := bytesToNat (((b :: tl).drop 21).take 32),
                    operation := (b :: tl).headD 0 } :: rest)
        | none => none
      else none
    else none

/-- Inverse of `createMultisendData`: strip the selector, follow the ABI head
(offset, length) to the packed payload and decode its framing. -/
def decodeMultisendData (bs : List Nat) : Option (List CallDescriptor) :=
  if bs.take 4 = multiSendSelector then
    decodeMultisendPacked
      (bytesToNat ((bs.drop (4 + bytesToNat ((bs.drop 4).take 32))).take 32))
      ((bs.drop (4 + bytesToNat ((bs.drop 4).take 32) + 32)).take
        (bytesToNat ((bs.drop (4 + bytesToNat ((bs.drop 4).take 32))).take 32)))
  else none

/-- Well-formedness of a descriptor: every field fits the width its multisend
serialization allots it. -/
def WfDescriptor (tx : CallDescriptor) : Prop :=
  tx.to_ < 256 ^ 20 ∧ tx.value < 256 ^ 32 ∧ tx.data.length < 256 ^ 32

/-! ## Approval requirements and the descriptors `approveAll` builds -/

inductive TokenType
  | erc20
  | erc1155
deriving DecidableEq

/-- The `ApprovalStatus` record of the source: `{ name, approved, type, spender }`. -/
structure ApprovalStatus where
  name : String
  approved : Bool
  type : TokenType
  spender : Nat
deriving DecidableEq

/-- Selector of approve(address,uint256): `0x095ea7b3`. -/
def approveSelector : List Nat := [0x09, 0x5e, 0xa7, 0xb3]

/-- Selector of setApprovalForAll(address,bool): `0xa22cb465`. -/
def setApprovalForAllSelector : List Nat := [0xa2, 0x2c, 0xb4, 0x65]

def MaxUint256 : Nat := 2 ^ 256 - 1

/-- Call data `usdcInterface.encodeFunctionData('approve', [spender, MaxUint256])`. -/
def encodeApprove (spender : Nat) : List Nat :=
  approveSelector ++ natToBytesBE 32 spender ++ natToBytesBE 32 MaxUint256

/-- Call data `ctfInterface.encodeFunctionData('setApprovalForAll', [spender, true])`. -/
def encodeSetApprovalForAll (spender : Nat) : List Nat :=
  setApprovalForAllSelector ++ natToBytesBE 32 spender ++ natToBytesBE 32 1

/-- The descriptor `approveAll` builds for one pending approval: an ERC20
max-allowance `approve` on USDC.e, or an ERC1155 `setApprovalForAll` on the
CTF, always with `value = '0'` and `operation = 0` (Call). -/
def buildApprovalTx (a : ApprovalStatus) : CallDescriptor :=
  if a.type = TokenType.erc20 then
    { to_ := USDCe, data := encodeApprove a.spender, value := 0, operation := 0 }
  else
    { to_ := CTF, data := encodeSetApprovalForAll a.spender, value := 0, operation := 0 }

/-- The `(finalTo, finalData, finalOperation)` triple of `approveAll`. -/
structure FinalTx where
  to_ : Nat
  data : List Nat
  operation : Nat
deriving DecidableEq

/-- Aggregation step of `approveAll` (lines 464-478): one descriptor is passed
through with operation Call; otherwise the batch goes to the multisend
contract as a DelegateCall. -/
def aggregateTransactions (transactions : List CallDescriptor) : FinalTx :=
  match transactions with
  | [tx] => { to_ := tx.to_, data := tx.data, operation := 0 }
  | _ => { to_ := SAFE_MULTISEND, data := createMultisendData transactions, operation := 1 }

/-! ## Transaction states and the poll loop (`pollTransactionStatus`)

The JS loop runs `for (i = 0; i < maxPolls; i++)`. Each iteration fetches the
status; MINED/CONFIRMED returns, FAILED throws `Transaction failed` — but that
throw happens inside the iteration's own `try`, whose `catch` logs the error
and rethrows only when `i === maxPolls - 1`. A fetch/JSON error behaves the
same way. After the loop, `Transaction timeout` is thrown. `respond i` is the
outcome of the i-th status request: `.error` for a thrown fetch, `.ok s` for a
response whose state field is `s`. -/

inductive TxState
  | pending
  | submitted
  | mined
  | confirmed
  | failed
  | unknown
deriving DecidableEq

/-- The four ways `pollTransactionStatus` can come back to its caller:
return of the fetched transaction at a given attempt, the rethrown
`Transaction failed` error, a rethrown fetch error, or the final
`Transaction timeout` error. -/
inductive PollOutcome
  | success (attempt : Nat)
  | failedTx (attempt : Nat)
  | pollError (attempt : Nat)
  | timeout
deriving DecidableEq

/-- One execution of the poll loop from attempt `i` with `fuel` iterations
left, returning the outcome and the number of status requests performed. -/
def pollFrom (respond : Nat → Except Unit TxState) (maxPolls : Nat) :
    Nat → Nat → PollOutcome × Nat
  | _, 0 => (PollOutcome.timeout, 0)
  | i, fuel + 1 =>
    match respond i with
    | Except.ok s =>
      if s = TxState.mined ∨ s = TxState.confirmed then (PollOutcome.success i, 1)
      else if s = TxState.failed then
        if i = maxPolls - 1 then (PollOutcome.failedTx i, 1)
        else
          ((pollFrom respond maxPolls (i + 1) fuel).1,
            (pollFrom respond maxPolls (i + 1) fuel).2 + 1)
      else
        ((pollFrom respond maxPolls (i + 1) fuel).1,
          (pollFrom respond maxPolls (i + 1) fuel).2 + 1)
    | Except.error _ =>
      if i = maxPolls - 1 then (PollOutcome.pollError i, 1)
      else
        ((pollFrom respond maxPolls (i + 1) fuel).1,
          (pollFrom respond maxPolls (i + 1) fuel).2 + 1)

/-- Model of `pollTransactionStatus(txId, maxPolls)`: outcome and number of
status requests performed. -/
def pollTransactionStatus (respond : Nat → Except Unit TxState) (maxPolls : Nat) :
    PollOutcome × Nat :=
  pollFrom respond maxPolls 0 maxPolls

/-- Responses refuting C3 as stated: FAILED at attempt 0, MINED at attempt 1. -/
def exRespondFailedFirst : Nat → Except Unit TxState :=
  fun i => Except.ok (if i = 0 then TxState.failed else TxState.mined)

/-! ## The coordination layer: state, environments and operations

`deploySafe`, `checkApprovals` and `approveAll` are async functions whose
network and signer interactions are modelled by environment records carrying
the response of each interaction (`Except.error` for a thrown fetch/signing
rejection). Each operation returns its outcome (`Except.error` iff the JS
function rejects), the component state it leaves behind, and the ordered list
of signing/network actions it attempted. -/

/-- The mutable component state the modelled operations read and write:
the `isSafeDeployed` flag and the cached `approvals` list. -/
structure SafeState where
  isSafeDeployed : Bool
  approvals : List ApprovalStatus
deriving DecidableEq

/-- The JSON value placed in a payload field: a string or a bare number. -/
inductive JsonValue
  | str (s : String)
  | num (n : Nat)
deriving DecidableEq

/-- The `SafeTx` struct whose EIP-712 typed-data hash `approveAll` signs. -/
structure SafeTx where
  to_ : Nat
  value : Nat
  data : List Nat
  operation : Nat
  safeTxGas : Nat
  baseGas : Nat
  gasPrice : Nat
  gasToken : Nat
  refundReceiver : Nat
  nonce : Nat
deriving DecidableEq

/-- The body POSTed to `/api/safe/execute` (signatureParams flattened). -/
structure ExecutePayload where
  from_ : Nat
  to_ : Nat
  proxyWallet : Nat
  data : List Nat
  nonce : JsonValue
  signature : List Nat
  gasPriceParam : String
  operationParam : String
  safeTxnGasParam : String
  baseGasParam : String
  gasTokenParam : Nat
  refundReceiverParam : Nat
  metadata : String
deriving DecidableEq

/-- One signing or network interaction attempted by an operation. -/
inductive Action
  | fetchDeployedCheck
  | chainCodeCheck
  | signDeploy
  | postDeploy
  | fetchAllowances
  | fetchNonce
  | signSafeTx (tx : SafeTx)
  | postExecute (p : ExecutePayload)
  | fetchStatus (i : Nat)
deriving DecidableEq

/-- How a POST (deploy or execute) comes back: a thrown fetch, an empty body,
an unparseable body, a non-ok HTTP status, or an ok response whose
`transactionID || id` is `txId` (`none` when both fields are absent). -/
inductive PostResp
  | netError
  | emptyBody
  | badJson
  | notOk
  | okResp (txId : Option Nat)
deriving DecidableEq

/-- Responses available to one `checkSafeDeployed` call: the relay query and,
on its failure, the provider presence and the `getCode` fallback. -/
structure CheckDeployedEnv where
  relayResp : Except Unit Bool
  hasProvider : Bool
  codeResp : Except Unit Bool

/-- Model of `checkSafeDeployed`: relay first; on a thrown fetch fall back to
an on-chain bytecode check when a provider exists; every internal error is
caught and becomes `false`. Returns the answer and the requests made. -/
def checkSafeDeployedRun (hasSafeAddress : Bool) (env : CheckDeployedEnv) :
    Bool × List Action :=
  if !hasSafeAddress then (false, [])
  else
    match env.relayResp with
    | Except.ok b => (b, [Action.fetchDeployedCheck])
    | Except.error _ =>
      if env.hasProvider then
        match env.codeResp with
        | Except.ok hasCode => (hasCode, [Action.fetchDeployedCheck, Action.chainCodeCheck])
        | Except.error _ => (false, [Action.fetchDeployedCheck, Action.chainCodeCheck])
      else (false, [Action.fetchDeployedCheck])

/-- The status requests performed by a poll run making `n` requests. -/
def pollActions (n : Nat) : List Action :=
  (List.range n).map Action.fetchStatus

/-- Responses available to one `deploySafe` call. -/
structure DeploySafeEnv where
  hasSigner : Bool
  hasAddress : Bool
  hasSafeAddress : Bool
  hasFactory : Bool
  preCheck : CheckDeployedEnv
  signOk : Bool
  postResp : PostResp
  pollRespond : Nat → Except Unit TxState
  postCheck : CheckDeployedEnv

/-- Model of `deploySafe` (lines 227-321): missing requirements return
silently; an already-deployed check short-circuits to success; otherwise sign
the CreateProxy message, POST the deploy request, poll (poll errors are
caught), re-check deployment, and set the deployed flag in either branch.
Errors thrown after the guard are rethrown by the catch. -/
def deploySafe (env : DeploySafeEnv) (st : SafeState) :
    Except Unit Unit × SafeState × List Action :=
  if !(env.hasSigner && env.hasAddress && env.hasSafeAddress && env.hasFactory) then
    (Except.ok (), st, [])
  else
    if (checkSafeDeployedRun env.hasSafeAddress env.preCheck).1 then
      (Except.ok (), { st with isSafeDeployed := true },
        (checkSafeDeployedRun env.hasSafeAddress env.preCheck).2)
    else
      if !env.signOk then
        (Except.error (), st,
          (checkSafeDeployedRun env.hasSafeAddress env.preCheck).2 ++ [Action.signDeploy])
      else
        match env.postResp with
        | PostResp.okResp txId =>
          (Except.ok (), { st with isSafeDeployed := true },
            (checkSafeDeployedRun env.hasSafeAddress env.preCheck).2 ++
              [Action.signDeploy, Action.postDeploy] ++
              (match txId with
               | none => []
               | some _ => pollActions (pollTransactionStatus env.pollRespond 40).2) ++
              (checkSafeDeployedRun env.hasSafeAddress env.postCheck).2)
        | _ =>
          (Except.error (), st,
            (checkSafeDeployedRun env.hasSafeAddress env.preCheck).2 ++
              [Action.signDeploy, Action.postDeploy])

/-- The seven on-chain reads of `checkApprovals` (four USDC.e allowances and
three CTF operator flags), as returned by the `Promise.all`. -/
structure AllowanceEnv where
  allowCTF : Nat
  allowExchange : Nat
  allowNegExchange : Nat
  allowNegAdapter : Nat
  approvedExchange : Bool
  approvedNegExchange : Bool
  approvedNegAdapter : Bool
deriving DecidableEq

/-- The `ApprovalStatus` list `checkApprovals` builds (lines 355-363): an
ERC20 entry is approved iff its allowance is nonzero (`!allowance.isZero()`),
an ERC1155 entry iff `isApprovedForAll` returned true. -/
def mkApprovalStatuses (e : AllowanceEnv) : List ApprovalStatus :=
  [ { name := "USDC → CTF", type := TokenType.erc20, spender := CTF,
      approved := e.allowCTF != 0 },
    { name := "USDC → Exchange", type := TokenType.erc20, spender := CTF_EXCHANGE,
      approved := e.allowExchange != 0 },
    { name := "USDC → NegRisk Exchange", type := TokenType.erc20,
      spender := NEG_RISK_CTF_EXCHANGE, approved := e.allowNegExchange != 0 },
    { name := "USDC → NegRisk Adapter", type := TokenType.erc20,
      spender := NEG_RISK_ADAPTER, approved := e.allowNegAdapter != 0 },
    { name := "CTF → Exchange", type := TokenType.erc1155, spender := CTF_EXCHANGE,
      approved := e.approvedExchange },
    { name := "CTF → NegRisk Exchange", type := TokenType.erc1155,
      spender := NEG_RISK_CTF_EXCHANGE, approved := e.approvedNegExchange },
    { name := "CTF → NegRisk Adapter", type := TokenType.erc1155,
      spender := NEG_RISK_ADAPTER, approved := e.approvedNegAdapter } ]

/-- Responses available to one `checkApprovals` call. -/
structure CheckApprovalsEnv where
  hasProvider : Bool
  hasSafeAddress : Bool
  reads : Except Unit AllowanceEnv

/-- The `try` body of `checkApprovals`: perform the reads and compute the
statuses, or propagate the thrown read error. -/
def checkApprovalsBody (env : CheckApprovalsEnv) : Except Unit (List ApprovalStatus) :=
  match env.reads with
  | Except.ok e => Except.ok (mkApprovalStatuses e)
  | Except.error e => Except.error e

/-- Model of `checkApprovals` (lines 324-372): guard, then the try body; its
`catch` logs the error and completes normally, leaving `approvals` unchanged.
The first component is always `Except.ok` — the catch swallows every error. -/
def checkApprovals (env : CheckApprovalsEnv) (st : SafeState) :
    Except Unit Unit × SafeState × List Action :=
  if !(env.hasProvider && env.hasSafeAddress) then (Except.ok (), st, [])
  else
    match checkApprovalsBody env with
    | Except.ok stats =>
      (Except.ok (), { st with approvals := stats }, [Action.fetchAllowances])
    | Except.error _ => (Except.ok (), st, [Action.fetchAllowances])

def ZERO_ADDRESS : Nat := 0

/-- The `safeTxMessage` struct built and signed by `approveAll`: all gas
fields zero, gas token and refund receiver the zero address, and the freshly
fetched nonce. -/
def buildSafeTx (ft : FinalTx) (nonce : Nat) : SafeTx :=
  { to_ := ft.to_, value := 0, data := ft.data, operation := ft.operation,
    safeTxGas := 0, baseGas := 0, gasPrice := 0, gasToken := ZERO_ADDRESS,
    refundReceiver := ZERO_ADDRESS, nonce := nonce }

/-- The body `approveAll` POSTs to `/api/safe/execute`: the nonce is the
string fetched from the relay, the signature the packed `(r, s, v+4)`, and
`signatureParams.operation` the string of the final operation code. -/
def buildExecutePayload (addr safeAddr : Nat) (ft : FinalTx) (nonceStr : String)
    (packedSig : List Nat) : ExecutePayload :=
  { from_ := addr, to_ := ft.to_, proxyWallet := safeAddr, data := ft.data,
    nonce := JsonValue.str nonceStr, signature := packedSig,
    gasPriceParam := "0", operationParam := toString ft.operation,
    safeTxnGasParam := "0", baseGasParam := "0", gasTokenParam := ZERO_ADDRESS,
    refundReceiverParam := ZERO_ADDRESS, metadata := "Set token approvals" }

/-- Responses available to one `approveAll` call. -/
structure ApproveAllEnv where
  hasSigner : Bool
  hasAddress : Bool
  hasSafeAddress : Bool
  ownerAddress : Nat
  safeAddress : Nat
  deployEnv : DeploySafeEnv
  nonceResp : Except Unit Nat
  signResp : Except Unit (Nat × Nat × Nat)
  execResp : PostResp
  pollRespond : Nat → Except Unit TxState
  recheck : CheckApprovalsEnv

/-- The nonce-fetch, signing and submission actions of an `approveAll` run
that reached the execute POST, for pending approvals taken from `st1`. -/
def approveAllBaseActions (env : ApproveAllEnv) (st1 : SafeState) (n r s v : Nat) :
    List Action :=
  [Action.fetchNonce,
   Action.signSafeTx (buildSafeTx (aggregateTransactions
     ((st1.approvals.filter (fun a => !a.approved)).map buildApprovalTx)) n),
   Action.postExecute (buildExecutePayload env.ownerAddress env.safeAddress
     (aggregateTransactions
       ((st1.approvals.filter (fun a => !a.approved)).map buildApprovalTx))
     (toString n) (packSignature r s v))]

/-- Model of `approveAll` (lines 412-599): guard; deploy first when the
deployed flag is unset; filter the pending approvals and return when none;
fetch the nonce, build and aggregate the descriptors, sign the SafeTx hash,
POST the execute payload, poll when a transaction id came back, and re-run
`checkApprovals`. Errors thrown inside the try are rethrown by its catch. -/
def approveAll (env : ApproveAllEnv) (st : SafeState) :
    Except Unit Unit × SafeState × List Action :=
  if !(env.hasSigner && env.hasAddress && env.hasSafeAddress) then (Except.ok (), st, [])
  else
    match (if st.isSafeDeployed then (Except.ok (), st, ([] : List Action))
           else deploySafe env.deployEnv st) with
    | (Except.error e, st1, dacts) => (Except.error e, st1, dacts)
    | (Except.ok _, st1, dacts) =>
      if st1.approvals.filter (fun a => !a.approved) = [] then (Except.ok (), st1, dacts)
      else
        match env.nonceResp with
        | Except.error e => (Except.error e, st1, dacts ++ [Action.fetchNonce])
        | Except.ok n =>
          match env.signResp with
          | Except.error e =>
            (Except.error e, st1, dacts ++ [Action.fetchNonce,
              Action.signSafeTx (buildSafeTx (aggregateTransactions
                ((st1.approvals.filter (fun a => !a.approved)).map buildApprovalTx)) n)])
          | Except.ok (r, s, v) =>
            match env.execResp with
            | PostResp.okResp txId =>
              match txId with
              | none =>
                (Except.ok (), (checkApprovals env.recheck st1).2.1,
                  dacts ++ approveAllBaseActions env st1 n r s v ++
                    (checkApprovals env.recheck st1).2.2)
              | some _ =>
                match (pollTransactionStatus env.pollRespond 40).1 with
                | PollOutcome.success _ =>
                  (Except.ok (), (checkApprovals env.recheck st1).2.1,
                    dacts ++ approveAllBaseActions env st1 n r s v ++
                      pollActions (pollTransactionStatus env.pollRespond 40).2 ++
                      (checkApprovals env.recheck st1).2.2)
                | _ =>
                  (Except.error (), st1,
                    dacts ++ approveAllBaseActions env st1 n r s v ++
                      pollActions (pollTransactionStatus env.pollRespond 40).2)
            | _ =>
              (Except.error (), st1, dacts ++ approveAllBaseActions env st1 n r s v)

/-- The allowance `checkApprovals` read for a given ERC20 spender. -/
def allowanceOf (e : AllowanceEnv) (sp : Nat) : Nat :=
  if sp = CTF then e.allowCTF
  else if sp = CTF_EXCHANGE then e.allowExchange
  else if sp = NEG_RISK_CTF_EXCHANGE then e.allowNegExchange
  else e.allowNegAdapter

/-! ## Concrete environments used for witnesses and counterexamples -/

/-- A deployment-check environment whose relay answers `deployed: true`. -/
def relaySaysDeployed : CheckDeployedEnv :=
  { relayResp := Except.ok true, hasProvider := true, codeResp := Except.ok true }

/-- A deployment-check environment whose relay answers `deployed: false`. -/
def relaySaysNotDeployed : CheckDeployedEnv :=
  { relayResp := Except.ok false, hasProvider := true, codeResp := Except.ok false }

/-- A deploy environment for a wallet the relay reports already deployed. -/
def alreadyDeployedEnv : DeploySafeEnv :=
  { hasSigner := true, hasAddress := true, hasSafeAddress := true, hasFactory := true,
    preCheck := relaySaysDeployed, signOk := true, postResp := PostResp.okResp none,
    pollRespond := fun _ => Except.ok TxState.pending, postCheck := relaySaysDeployed }

/-- A deploy environment in which the submission succeeds with transaction id
7, every poll sees STATE_PENDING (so the poll times out), and the final
deployment re-check still reports not deployed. -/
def submittedButUnconfirmedEnv : DeploySafeEnv :=
  { hasSigner := true, hasAddress := true, hasSafeAddress := true, hasFactory := true,
    preCheck := relaySaysNotDeployed, signOk := true,
    postResp := PostResp.okResp (some 7),
    pollRespond := fun _ => Except.ok TxState.pending,
    postCheck := relaySaysNotDeployed }

/-- A deploy environment in which the user declines the CreateProxy
signature. -/
def signDeclineDeployEnv : DeploySafeEnv :=
  { hasSigner := true, hasAddress := true, hasSafeAddress := true, hasFactory := true,
    preCheck := relaySaysNotDeployed, signOk := false, postResp := PostResp.okResp none,
    pollRespond := fun _ => Except.ok TxState.pending, postCheck := relaySaysNotDeployed }

/-- An approvals-check environment whose on-chain reads throw. -/
def failingReadsEnv : CheckApprovalsEnv :=
  { hasProvider := true, hasSafeAddress := true, reads := Except.error () }

/-- An approvals-check environment whose reads all come back satisfied with a
tiny (1-unit) allowance. -/
def tinyAllowanceEnv : AllowanceEnv :=
  { allowCTF := 1, allowExchange := 1, allowNegExchange := 1, allowNegAdapter := 1,
    approvedExchange := true, approvedNegExchange := true, approvedNegAdapter := true }

/-- The ERC20 entry of `mkApprovalStatuses tinyAllowanceEnv` for the CTF
spender. -/
def sampleErc20Entry : ApprovalStatus :=
  { name := "USDC → CTF", approved := true, type := TokenType.erc20, spender := CTF }

/-- An approvals list in which every requirement is already satisfied. -/
def cexApprovalsAllSet : List ApprovalStatus :=
  [{ name := "USDC → CTF", approved := true, type := TokenType.erc20, spender := CTF }]

/-- An approvals list with a single unsatisfied ERC20 requirement. -/
def onePendingApprovals : List ApprovalStatus :=
  [{ name := "USDC → CTF", approved := false, type := TokenType.erc20, spender := CTF }]

/-- An `approveAll` environment: wallet not yet deployed per the relay, all
interactions succeed, the execute response carries no transaction id, and the
final `checkApprovals` reads throw (and are swallowed). -/
def cexApproveAllEnv : ApproveAllEnv :=
  { hasSigner := true, hasAddress := true, hasSafeAddress := true,
    ownerAddress := 1, safeAddress := 2,
    deployEnv :=
      { hasSigner := true, hasAddress := true, hasSafeAddress := true, hasFactory := true,
        preCheck := relaySaysNotDeployed, signOk := true,
        postResp := PostResp.okResp none,
        pollRespond := fun _ => Except.ok TxState.pending,
        postCheck := relaySaysDeployed },
    nonceResp := Except.ok 0, signResp := Except.ok (1, 2, 27),
    execResp := PostResp.okResp none,
    pollRespond := fun _ => Except.ok TxState.pending,
    recheck := failingReadsEnv }

/-- The state of a wallet that is not deployed but whose approval list is
fully satisfied. -/
def cexStateNotDeployed : SafeState :=
  { isSafeDeployed := false, approvals := cexApprovalsAllSet }

/-- The state of a deployed wallet with one pending approval. -/
def stOnePending : SafeState :=
  { isSafeDeployed := true, approvals := onePendingApprovals }

/-! ## Theorems -/

theorem length_natToBytesBE (len n : Nat) : (natToBytesBE len n).length = len := by
  induction len generalizing n with
  | zero => rfl
  | succ l ih => simp [natToBytesBE, ih]

theorem bytesToNat_foldl (bs : List Nat) (a : Nat) :
    bs.foldl (fun acc b => acc * 256 + b) a = a * 256 ^ bs.length + bytesToNat bs := by
  induction bs generalizing a with
  | nil => simp [bytesToNat]
  | cons x xs ih =>
    simp only [List.foldl_cons, List.length_cons, bytesToNat]
    rw [ih (a * 256 + x), ih (0 * 256 + x)]
    ring

theorem bytesToNat_natToBytesBE {len n : Nat} (h : n < 256 ^ len) :
    bytesToNat (natToBytesBE len n) = n := by
  induction len generalizing n with
  | zero =>
    interval_cases n
    rfl
  | succ l ih =>
    have hdiv : n / 256 < 256 ^ l := by
      rw [Nat.div_lt_iff_lt_mul (by norm_num : 0 < 256)]
      calc n < 256 ^ (l + 1) := h
        _ = 256 ^ l * 256 := by rw [pow_succ]
    simp only [natToBytesBE, bytesToNat, List.foldl_append, List.foldl_cons, List.foldl_nil]
    have := ih hdiv
    simp only [bytesToNat] at this
    rw [this]
    omega

/-- C1: a raw recovery id v ∈ {27, 28} is packed as r (32 bytes), then s
(32 bytes), then the single byte v + 4 ∈ {31, 32}, in that order. -/
theorem packSignature_v_shift (r s v : Nat) (h : v = 27 ∨ v = 28) :
    packSignature r s v = natToBytesBE 32 r ++ natToBytesBE 32 s ++ [v + 4] ∧
    (adjustV v = 31 ∨ adjustV v = 32) := by
  constructor
  · simp [packSignature, adjustV, h]
  · rcases h with h | h <;> simp [adjustV, h]

/-- Witness for `packSignature_v_shift` at v = 27. -/
theorem packSignature_v_shift_witness :
    packSignature 1 2 27 = natToBytesBE 32 1 ++ natToBytesBE 32 2 ++ [27 + 4] ∧
    (adjustV 27 = 31 ∨ adjustV 27 = 32) :=
  packSignature_v_shift 1 2 27 (Or.inl rfl)

theorem take_append_length {α : Type} (l₁ l₂ : List α) {n : Nat} (h : l₁.length = n) :
    (l₁ ++ l₂).take n = l₁ := by
  subst h
  induction l₁ with
  | nil => rfl
  | cons x xs ih => simp [ih]

theorem drop_append_length {α : Type} (l₁ l₂ : List α) {n : Nat} (h : l₁.length = n) :
    (l₁ ++ l₂).drop n = l₂ := by
  subst h
  induction l₁ with
  | nil => rfl
  | cons x xs ih => simp [ih]

theorem length_encodeMultisendTx (tx : CallDescriptor) :
    (encodeMultisendTx tx).length = 85 + tx.data.length := by
  simp [encodeMultisendTx, length_natToBytesBE]
  omega

theorem decodeMultisendPacked_cons (tx : CallDescriptor) (hwf : WfDescriptor tx)
    (fuel : Nat) (rest : List Nat) :
    decodeMultisendPacked (fuel + 1) (encodeMultisendTx tx ++ rest) =
      (decodeMultisendPacked fuel rest).map (fun l => tx :: l) := by
  obtain ⟨hto, hval, hlen⟩ := hwf
  obtain ⟨t, d, v, o⟩ := tx
  simp only [CallDescriptor.data] at hlen
  simp only [CallDescriptor.to_] at hto
  simp only [CallDescriptor.value] at hval
  have hA : (natToBytesBE 20 t).length = 20 := length_natToBytesBE _ _
  have hB : (natToBytesBE 32 v).length = 32 := length_natToBytesBE _ _
  have hC : (natToBytesBE 32 d.length).length = 32 := length_natToBytesBE _ _
  have he1 : encodeMultisendTx ⟨t, d, v, o⟩ ++ rest =
      o :: (natToBytesBE 20 t ++ (natToBytesBE 32 v ++ (natToBytesBE 32 d.length ++ (d ++ rest)))) := by
    simp [encodeMultisendTx]
  have hlen1 : (encodeMultisendTx ⟨t, d, v, o⟩ ++ rest).length = 85 + d.length + rest.length := by
    simp [length_encodeMultisendTx]
  have hcond : 85 ≤ (o :: (natToBytesBE 20 t ++ (natToBytesBE 32 v ++
      (natToBytesBE 32 d.length ++ (d ++ rest))))).length := by
    rw [← he1, hlen1]; omega
  have hd1 : (o :: (natToBytesBE 20 t ++ (natToBytesBE 32 v ++
      (natToBytesBE 32 d.length ++ (d ++ rest))))).drop 1 =
      natToBytesBE 20 t ++ (natToBytesBE 32 v ++ (natToBytesBE 32 d.length ++ (d ++ rest))) := rfl
  have hd21 : (o :: (natToBytesBE 20 t ++ (natToBytesBE 32 v ++
      (natToBytesBE 32 d.length ++ (d ++ rest))))).drop 21 =
      natToBytesBE 32 v ++ (natToBytesBE 32 d.length ++ (d ++ rest)) := by
    have : (o :: (natToBytesBE 20 t ++ (natToBytesBE 32 v ++
        (natToBytesBE 32 d.length ++ (d ++ rest))))) =
        (o :: natToBytesBE 20 t) ++ (natToBytesBE 32 v ++ (natToBytesBE 32 d.length ++ (d ++ rest))) := by
      simp
    rw [this]
    exact drop_append_length _ _ (by simp [hA])
  have hd53 : (o :: (natToBytesBE 20 t ++ (natToBytesBE 32 v ++
      (natToBytesBE 32 d.length ++ (d ++ rest))))).drop 53 =
      natToBytesBE 32 d.length ++ (d ++ rest) := by
    have : (o :: (natToBytesBE 20 t ++ (natToBytesBE 32 v ++
        (natToBytesBE 32 d.length ++ (d ++ rest))))) =
        ((o :: natToBytesBE 20 t) ++ natToBytesBE 32 v) ++ (natToBytesBE 32 d.length ++ (d ++ rest)) := by
      simp
    rw [this]
    exact drop_append_length _ _ (by simp [hA, hB])
  have hd85 : (o :: (natToBytesBE 20 t ++ (natToBytesBE 32 v ++
      (natToBytesBE 32 d.length ++ (d ++ rest))))).drop 85 = d ++ rest := by
    have : (o :: (natToBytesBE 20 t ++ (natToBytesBE 32 v ++
        (natToBytesBE 32 d.length ++ (d ++ rest))))) =
        (((o :: natToBytesBE 20 t) ++ natToBytesBE 32 v) ++ natToBytesBE 32 d.length) ++ (d ++ rest) := by
      simp
    rw [this]
    exact drop_append_length _ _ (by simp [hA, hB, hC])
  have hdfull : (o :: (natToBytesBE 20 t ++ (natToBytesBE 32 v ++
      (natToBytesBE 32 d.length ++ (d ++ rest))))).drop (85 + d.length) = rest := by
    have : (o :: (natToBytesBE 20 t ++ (natToBytesBE 32 v ++
        (natToBytesBE 32 d.length ++ (d ++ rest))))) =
        ((((o :: natToBytesBE 20 t) ++ natToBytesBE 32 v) ++ natToBytesBE 32 d.length) ++ d) ++ rest := by
      simp
    rw [this]
    exact drop_append_length _ _ (by simp [hA, hB, hC]; omega)
  have hcond2 : 85 + d.length ≤ (o :: (natToBytesBE 20 t ++ (natToBytesBE 32 v ++
      (natToBytesBE 32 d.length ++ (d ++ rest))))).length := by
    rw [← he1, hlen1]; omega
  rw [he1, decodeMultisendPacked]
  rw [if_pos hcond]
  rw [hd53, take_append_length _ _ hC, bytesToNat_natToBytesBE hlen]
  rw [if_pos hcond2]
  rw [hdfull, hd85, take_append_length d rest rfl]
  rw [hd1, take_append_length _ _ hA, bytesToNat_natToBytesBE hto]
  rw [hd21, take_append_length _ _ hB, bytesToNat_natToBytesBE hval]
  simp only [List.headD_cons]
  cases decodeMultisendPacked fuel rest <;> rfl

theorem decodeMultisendPacked_roundtrip (txs : List CallDescriptor) (fuel : Nat)
    (hfuel : txs.length ≤ fuel) (hwf : ∀ tx ∈ txs, WfDescriptor tx) :
    decodeMultisendPacked fuel (packedMultisend txs) = some txs := by
  induction txs generalizing fuel with
  | nil =>
    cases fuel <;> rfl
  | cons tx txs ih =>
    match fuel, hfuel with
    | fuel + 1, hfuel =>
      have hpack : packedMultisend (tx :: txs) = encodeMultisendTx tx ++ packedMultisend txs := by
        simp [packedMultisend]
      rw [hpack, decodeMultisendPacked_cons tx (hwf tx (by simp)) fuel (packedMultisend txs)]
      rw [ih fuel (by simpa using hfuel) (fun t ht => hwf t (by simp [ht]))]
      rfl

theorem length_packedMultisend (txs : List CallDescriptor) :
    (packedMultisend txs).length =
      (txs.map (fun tx => 85 + tx.data.length)).sum := by
  induction txs with
  | nil => rfl
  | cons tx txs ih =>
    simp [packedMultisend] at ih ⊢
    simp [length_encodeMultisendTx, ih]

theorem decodeMultisendData_roundtrip (txs : List CallDescriptor)
    (hwf : ∀ tx ∈ txs, WfDescriptor tx)
    (hsize : (packedMultisend txs).length < 256 ^ 32) :
    decodeMultisendData (createMultisendData txs) = some txs := by
  have h32 : (32 : Nat) < 256 ^ 32 := by
    calc (32 : Nat) < 256 := by norm_num
      _ = 256 ^ 1 := (pow_one 256).symm
      _ ≤ 256 ^ 32 := Nat.pow_le_pow_right (by norm_num) (by norm_num)
  have hW : (natToBytesBE 32 (32 : Nat)).length = 32 := length_natToBytesBE _ _
  have hL : (natToBytesBE 32 (packedMultisend txs).length).length = 32 := length_natToBytesBE _ _
  have hsel : (createMultisendData txs).take 4 = multiSendSelector := by
    unfold createMultisendData
    exact take_append_length _ _ rfl
  have hd4 : (createMultisendData txs).drop 4 = abiEncodeBytes (packedMultisend txs) := by
    unfold createMultisendData
    exact drop_append_length _ _ (by simp [multiSendSelector])
  have hoff : (abiEncodeBytes (packedMultisend txs)).take 32 = natToBytesBE 32 32 := by
    unfold abiEncodeBytes
    rw [List.append_assoc]
    exact take_append_length _ _ hW
  have hd36 : (createMultisendData txs).drop (4 + 32) =
      natToBytesBE 32 (packedMultisend txs).length ++ padRight32 (packedMultisend txs) := by
    unfold createMultisendData abiEncodeBytes
    have hre : multiSendSelector ++ (natToBytesBE 32 32 ++ natToBytesBE 32 (packedMultisend txs).length ++
        padRight32 (packedMultisend txs)) =
        (multiSendSelector ++ natToBytesBE 32 32) ++
          (natToBytesBE 32 (packedMultisend txs).length ++ padRight32 (packedMultisend txs)) := by
      simp
    rw [hre]
    exact drop_append_length _ _ (by simp [multiSendSelector, hW])
  have hd68 : (createMultisendData txs).drop (4 + 32 + 32) = padRight32 (packedMultisend txs) := by
    unfold createMultisendData abiEncodeBytes
    have hre : multiSendSelector ++ (natToBytesBE 32 32 ++ natToBytesBE 32 (packedMultisend txs).length ++
        padRight32 (packedMultisend txs)) =
        ((multiSendSelector ++ natToBytesBE 32 32) ++ natToBytesBE 32 (packedMultisend txs).length) ++
          padRight32 (packedMultisend txs) := by
      simp
    rw [hre]
    exact drop_append_length _ _ (by simp [multiSendSelector, hW, hL])
  unfold decodeMultisendData
  rw [if_pos hsel]
  rw [hd4, hoff, bytesToNat_natToBytesBE h32]
  rw [hd36, take_append_length _ _ hL, bytesToNat_natToBytesBE hsize]
  rw [hd68]
  have hpad : (padRight32 (packedMultisend txs)).take (packedMultisend txs).length =
      packedMultisend txs := by
    unfold padRight32
    exact take_append_length _ _ rfl
  rw [hpad]
  exact decodeMultisendPacked_roundtrip txs _ (by
    rw [length_packedMultisend]
    induction txs with
    | nil => simp
    | cons tx txs ih => simp at ih ⊢; omega) hwf

theorem length_encodeApprove (spender : Nat) : (encodeApprove spender).length = 68 := by
  simp [encodeApprove, approveSelector, length_natToBytesBE]

theorem length_encodeSetApprovalForAll (spender : Nat) :
    (encodeSetApprovalForAll spender).length = 68 := by
  simp [encodeSetApprovalForAll, setApprovalForAllSelector, length_natToBytesBE]

theorem wf_buildApprovalTx (a : ApprovalStatus) : WfDescriptor (buildApprovalTx a) := by
  unfold WfDescriptor buildApprovalTx
  by_cases h : a.type = TokenType.erc20 <;>
    simp [h, length_encodeApprove, length_encodeSetApprovalForAll, USDCe, CTF]

theorem length_packed_buildApprovalTx (pending : List ApprovalStatus) :
    (packedMultisend (pending.map buildApprovalTx)).length = 153 * pending.length := by
  induction pending with
  | nil => rfl
  | cons a l ih =>
    have : packedMultisend (buildApprovalTx a :: l.map buildApprovalTx) =
        encodeMultisendTx (buildApprovalTx a) ++ packedMultisend (l.map buildApprovalTx) := by
      simp [packedMultisend]
    simp only [List.map_cons, this, List.length_append, ih, length_encodeMultisendTx]
    have hd : (buildApprovalTx a).data.length = 68 := by
      unfold buildApprovalTx
      by_cases h : a.type = TokenType.erc20 <;>
        simp [h, length_encodeApprove, length_encodeSetApprovalForAll]
    rw [hd]
    simp [List.length_cons]
    ring

/-- C2: batching one pending descriptor passes its own target and call data
through with operation Call (0); batching two or more targets the fixed
multisend contract with operation DelegateCall (1), and the payload is the
multiSend encoding of the in-order concatenation of the descriptors'
(uint8 op, 20-byte target, 32-byte value, 32-byte length, data) frames, whose
reversal reconstructs exactly the original descriptors in order. -/
theorem approveAll_batching (a : ApprovalStatus) (pending : List ApprovalStatus)
    (h2 : 2 ≤ pending.length) (h7 : pending.length ≤ 7) :
    aggregateTransactions [buildApprovalTx a] =
      { to_ := (buildApprovalTx a).to_, data := (buildApprovalTx a).data, operation := 0 } ∧
    aggregateTransactions (pending.map buildApprovalTx) =
      { to_ := SAFE_MULTISEND,
        data := createMultisendData (pending.map buildApprovalTx), operation := 1 } ∧
    decodeMultisendData (createMultisendData (pending.map buildApprovalTx)) =
      some (pending.map buildApprovalTx) := by
  refine ⟨rfl, ?_, ?_⟩
  · match pending, h2 with
    | a₁ :: a₂ :: rest, _ => rfl
  · refine decodeMultisendData_roundtrip _ (fun tx htx => ?_) ?_
    · obtain ⟨b, _, rfl⟩ := List.mem_map.mp htx
      exact wf_buildApprovalTx b
    · rw [length_packed_buildApprovalTx]
      calc 153 * pending.length ≤ 153 * 7 := by omega
        _ < 256 ^ 32 := by norm_num

/-- Witness for `approveAll_batching` on one ERC20 descriptor and a pending
list of an ERC20 and an ERC1155 approval. -/
theorem approveAll_batching_witness :
    aggregateTransactions [buildApprovalTx ⟨"USDC → CTF", false, TokenType.erc20, CTF⟩] =
      { to_ := (buildApprovalTx ⟨"USDC → CTF", false, TokenType.erc20, CTF⟩).to_,
        data := (buildApprovalTx ⟨"USDC → CTF", false, TokenType.erc20, CTF⟩).data,
        operation := 0 } ∧
    aggregateTransactions
        ([⟨"USDC → CTF", false, TokenType.erc20, CTF⟩,
          ⟨"CTF → Exchange", false, TokenType.erc1155, CTF_EXCHANGE⟩].map buildApprovalTx) =
      { to_ := SAFE_MULTISEND,
        data := createMultisendData
          ([⟨"USDC → CTF", false, TokenType.erc20, CTF⟩,
            ⟨"CTF → Exchange", false, TokenType.erc1155, CTF_EXCHANGE⟩].map buildApprovalTx),
        operation := 1 } ∧
    decodeMultisendData (createMultisendData
        ([⟨"USDC → CTF", false, TokenType.erc20, CTF⟩,
          ⟨"CTF → Exchange", false, TokenType.erc1155, CTF_EXCHANGE⟩].map buildApprovalTx)) =
      some ([⟨"USDC → CTF", false, TokenType.erc20, CTF⟩,
          ⟨"CTF → Exchange", false, TokenType.erc1155, CTF_EXCHANGE⟩].map buildApprovalTx) :=
  approveAll_batching ⟨"USDC → CTF", false, TokenType.erc20, CTF⟩
    [⟨"USDC → CTF", false, TokenType.erc20, CTF⟩,
     ⟨"CTF → Exchange", false, TokenType.erc1155, CTF_EXCHANGE⟩]
    (by simp) (by simp)

theorem pollFrom_count_le (respond : Nat → Except Unit TxState) (maxPolls : Nat)
    (fuel : Nat) : ∀ i, (pollFrom respond maxPolls i fuel).2 ≤ fuel := by
  induction fuel with
  | zero => intro i; simp [pollFrom]
  | succ f ih =>
    intro i
    unfold pollFrom
    match respond i with
    | Except.ok s =>
      by_cases h1 : s = TxState.mined ∨ s = TxState.confirmed
      · simp [h1]
      · by_cases h2 : s = TxState.failed
        · by_cases h3 : i = maxPolls - 1
          · simp [h1, h2, h3]
          · simp [h1, h2, h3]
            exact ih (i + 1)
        · simp [h1, h2]
          exact ih (i + 1)
    | Except.error e =>
      by_cases h3 : i = maxPolls - 1
      · simp [h3]
      · simp [h3]
        exact ih (i + 1)

theorem pollFrom_count_pos (respond : Nat → Except Unit TxState) (maxPolls : Nat)
    (fuel : Nat) (hf : 1 ≤ fuel) : ∀ i, 1 ≤ (pollFrom respond maxPolls i fuel).2 := by
  match fuel, hf with
  | f + 1, _ =>
    intro i
    unfold pollFrom
    match respond i with
    | Except.ok s =>
      by_cases h1 : s = TxState.mined ∨ s = TxState.confirmed
      · simp [h1]
      · by_cases h2 : s = TxState.failed
        · by_cases h3 : i = maxPolls - 1 <;> simp [h1, h2, h3]
        · simp [h1, h2]
    | Except.error e =>
      by_cases h3 : i = maxPolls - 1 <;> simp [h3]

theorem pollFrom_timeout (respond : Nat → Except Unit TxState) (maxPolls : Nat)
    (fuel : Nat) : ∀ i, (∀ j, i ≤ j → j < i + fuel →
      ∃ s, respond j = Except.ok s ∧ s ≠ TxState.mined ∧ s ≠ TxState.confirmed ∧
        s ≠ TxState.failed) →
    pollFrom respond maxPolls i fuel = (PollOutcome.timeout, fuel) := by
  induction fuel with
  | zero => intro i _; simp [pollFrom]
  | succ f ih =>
    intro i h
    obtain ⟨s, hs, h1, h2, h3⟩ := h i (le_refl i) (by omega)
    unfold pollFrom
    rw [hs]
    dsimp only
    rw [if_neg (by tauto : ¬(s = TxState.mined ∨ s = TxState.confirmed)), if_neg h3,
      ih (i + 1) (fun j hj hj2 => h j (by omega) (by omega))]

/-- C4: the poll loop performs at most `maxPolls` status requests; exhausting
every attempt without observing a terminal state yields the distinct timeout
outcome with exactly `maxPolls` requests; and timeout is not the
transaction-failed outcome. -/
theorem pollTransactionStatus_budget (respond : Nat → Except Unit TxState)
    (maxPolls : Nat) :
    (pollTransactionStatus respond maxPolls).2 ≤ maxPolls ∧
    ((∀ i, i < maxPolls →
        ∃ s, respond i = Except.ok s ∧ s ≠ TxState.mined ∧ s ≠ TxState.confirmed ∧
          s ≠ TxState.failed) →
      pollTransactionStatus respond maxPolls = (PollOutcome.timeout, maxPolls)) ∧
    (∀ j, PollOutcome.timeout ≠ PollOutcome.failedTx j) := by
  refine ⟨pollFrom_count_le respond maxPolls maxPolls 0, ?_, ?_⟩
  · intro h
    exact pollFrom_timeout respond maxPolls maxPolls 0
      (fun j hj hj2 => h j (by omega))
  · intro j h
    cases h

/-- Witness for `pollTransactionStatus_budget`: three polls that always see
STATE_PENDING end in timeout after exactly three requests. -/
theorem pollTransactionStatus_budget_witness :
    (pollTransactionStatus (fun _ => Except.ok TxState.pending) 3).2 ≤ 3 ∧
    pollTransactionStatus (fun _ => Except.ok TxState.pending) 3 =
      (PollOutcome.timeout, 3) :=
  ⟨(pollTransactionStatus_budget (fun _ => Except.ok TxState.pending) 3).1,
   (pollTransactionStatus_budget (fun _ => Except.ok TxState.pending) 3).2.1
     (fun i _ => ⟨TxState.pending, rfl, by simp, by simp, by simp⟩)⟩

theorem pollFrom_failed (respond : Nat → Except Unit TxState) (maxPolls i : Nat) :
    ∀ fuel i₀, i₀ + fuel = maxPolls → i₀ ≤ i → i < maxPolls →
    (∀ j, i₀ ≤ j → j < i → ∀ s, respond j = Except.ok s →
      s ≠ TxState.mined ∧ s ≠ TxState.confirmed) →
    respond i = Except.ok TxState.failed →
    (i = maxPolls - 1 →
      pollFrom respond maxPolls i₀ fuel = (PollOutcome.failedTx i, fuel)) ∧
    (i < maxPolls - 1 →
      i + 2 - i₀ ≤ (pollFrom respond maxPolls i₀ fuel).2) := by
  intro fuel
  induction fuel with
  | zero =>
    intro i₀ hP hle hlt _ _
    omega
  | succ f ih =>
    intro i₀ hP hle hlt hpre hfail
    by_cases hi : i₀ = i
    · subst hi
      unfold pollFrom
      rw [hfail]
      dsimp only
      rw [if_neg (by simp : ¬(TxState.failed = TxState.mined ∨ TxState.failed = TxState.confirmed)),
        if_pos rfl]
      refine ⟨fun hlast => ?_, fun hnot => ?_⟩
      · have hf0 : f = 0 := by omega
        subst hf0
        simp [hlast]
      · rw [if_neg (by omega : ¬ i₀ = maxPolls - 1)]
        have hpos := pollFrom_count_pos respond maxPolls f (by omega) (i₀ + 1)
        show i₀ + 2 - i₀ ≤ (pollFrom respond maxPolls (i₀ + 1) f).2 + 1
        omega
    · have hstep : i₀ < i := by omega
      have hcont := hpre i₀ (le_refl _) hstep
      have ih' := ih (i₀ + 1) (by omega) (by omega) hlt
        (fun j hj hj2 s' hs' => hpre j (by omega) hj2 s' hs') hfail
      unfold pollFrom
      match hr : respond i₀ with
      | Except.ok s =>
        have hmc := hcont s hr
        dsimp only
        rw [if_neg (by tauto : ¬(s = TxState.mined ∨ s = TxState.confirmed))]
        by_cases hsf : s = TxState.failed
        · rw [if_pos hsf, if_neg (by omega : ¬ i₀ = maxPolls - 1)]
          refine ⟨fun hlast => ?_, fun hnot => ?_⟩
          · rw [ih'.1 hlast]
          · show i + 2 - i₀ ≤ (pollFrom respond maxPolls (i₀ + 1) f).2 + 1
            have := ih'.2 hnot
            omega
        · rw [if_neg hsf]
          refine ⟨fun hlast => ?_, fun hnot => ?_⟩
          · rw [ih'.1 hlast]
          · show i + 2 - i₀ ≤ (pollFrom respond maxPolls (i₀ + 1) f).2 + 1
            have := ih'.2 hnot
            omega
      | Except.error e =>
        dsimp only
        rw [if_neg (by omega : ¬ i₀ = maxPolls - 1)]
        refine ⟨fun hlast => ?_, fun hnot => ?_⟩
        · rw [ih'.1 hlast]
        · show i + 2 - i₀ ≤ (pollFrom respond maxPolls (i₀ + 1) f).2 + 1
          have := ih'.2 hnot
          omega

/-- Amended C3: when the fetched state is FAILED at attempt i, the function
raises immediately only if i is the last attempt (i = maxPolls - 1); at any
earlier attempt the thrown error is caught by the loop's own catch block and
polling continues, performing at least one further status request. -/
theorem pollTransactionStatus_failed (respond : Nat → Except Unit TxState)
    (maxPolls i : Nat) (hlt : i < maxPolls)
    (hpre : ∀ j, j < i → ∀ s, respond j = Except.ok s →
      s ≠ TxState.mined ∧ s ≠ TxState.confirmed)
    (hfail : respond i = Except.ok TxState.failed) :
    (i = maxPolls - 1 →
      pollTransactionStatus respond maxPolls = (PollOutcome.failedTx i, maxPolls)) ∧
    (i < maxPolls - 1 → i + 2 ≤ (pollTransactionStatus respond maxPolls).2) := by
  have h := pollFrom_failed respond maxPolls i maxPolls 0 (by omega) (by omega) hlt
    (fun j hj hj2 s hs => hpre j hj2 s hs) hfail
  have hdef : pollTransactionStatus respond maxPolls = pollFrom respond maxPolls 0 maxPolls := rfl
  refine ⟨fun hlast => ?_, fun hnot => ?_⟩
  · rw [hdef]
    exact h.1 hlast
  · rw [hdef]
    have := h.2 hnot
    omega

/-- Witness for `pollTransactionStatus_failed`: FAILED observed at the last
of two attempts raises the transaction-failed error. -/
theorem pollTransactionStatus_failed_witness :
    pollTransactionStatus
        (fun j => Except.ok (if j = 0 then TxState.pending else TxState.failed)) 2 =
      (PollOutcome.failedTx 1, 2) :=
  (pollTransactionStatus_failed
      (fun j => Except.ok (if j = 0 then TxState.pending else TxState.failed)) 2 1
      (by omega)
      (fun j hj s hs => by
        have hj0 : j = 0 := by omega
        subst hj0
        simp at hs
        subst hs
        exact ⟨by simp, by simp⟩)
      (by simp)).1 rfl

/-- Counterexample to C3 as stated: with FAILED fetched at attempt 0 of 2, the
loop does not raise at attempt 0 — it performs a second status request and
returns success at attempt 1. -/
theorem pollTransactionStatus_failed_cex :
    exRespondFailedFirst 0 = Except.ok TxState.failed ∧
    pollTransactionStatus exRespondFailedFirst 2 = (PollOutcome.success 1, 2) :=
  ⟨rfl, rfl⟩

theorem checkSafeDeployedRun_actions (flag : Bool) (env : CheckDeployedEnv) :
    ∀ a ∈ (checkSafeDeployedRun flag env).2,
      a = Action.fetchDeployedCheck ∨ a = Action.chainCodeCheck := by
  intro a ha
  cases flag with
  | false => simp [checkSafeDeployedRun] at ha
  | true =>
    cases hr : env.relayResp with
    | ok b =>
      simp [checkSafeDeployedRun, hr] at ha
      simp [ha]
    | error e =>
      by_cases hp : env.hasProvider
      · cases hc : env.codeResp with
        | ok c =>
          simp [checkSafeDeployedRun, hr, hp, hc] at ha
          rcases ha with h | h <;> simp [h]
        | error e2 =>
          simp [checkSafeDeployedRun, hr, hp, hc] at ha
          rcases ha with h | h <;> simp [h]
      · simp [checkSafeDeployedRun, hr, hp] at ha
        simp [ha]

/-- C6: deploySafe on a wallet whose deployment check reports deployed is a
no-op reporting success: no signing, no deploy submission, no polling, only
the read-only deployment check, and the deployed flag ends true; running
deploySafe again on the resulting state returns the very same result. -/
theorem deploySafe_idempotent (env : DeploySafeEnv) (st : SafeState)
    (hs : env.hasSigner = true) (ha : env.hasAddress = true)
    (hsa : env.hasSafeAddress = true) (hf : env.hasFactory = true)
    (hpre : (checkSafeDeployedRun env.hasSafeAddress env.preCheck).1 = true) :
    deploySafe env st =
      (Except.ok (), { st with isSafeDeployed := true },
        (checkSafeDeployedRun env.hasSafeAddress env.preCheck).2) ∧
    (∀ a ∈ (deploySafe env st).2.2,
      a = Action.fetchDeployedCheck ∨ a = Action.chainCodeCheck) ∧
    (deploySafe env st).2.1.isSafeDeployed = true ∧
    deploySafe env (deploySafe env st).2.1 = deploySafe env st := by
  have h1 : deploySafe env st =
      (Except.ok (), { st with isSafeDeployed := true },
        (checkSafeDeployedRun env.hasSafeAddress env.preCheck).2) := by
    unfold deploySafe
    rw [hs, ha, hsa, hf]
    rw [hsa] at hpre
    rw [hpre]
    simp
  have h2 : deploySafe env { st with isSafeDeployed := true } =
      (Except.ok (), { st with isSafeDeployed := true },
        (checkSafeDeployedRun env.hasSafeAddress env.preCheck).2) := by
    unfold deploySafe
    rw [hs, ha, hsa, hf]
    rw [hsa] at hpre
    rw [hpre]
    simp
  refine ⟨h1, ?_, ?_, ?_⟩
  · rw [h1]
    exact checkSafeDeployedRun_actions _ _
  · rw [h1]
  · rw [h1]
    exact h2.trans rfl

/-- Witness for `deploySafe_idempotent` on a relay that reports deployed. -/
theorem deploySafe_idempotent_witness :
    deploySafe alreadyDeployedEnv { isSafeDeployed := false, approvals := [] } =
      (Except.ok (), { isSafeDeployed := true, approvals := [] },
        (checkSafeDeployedRun alreadyDeployedEnv.hasSafeAddress
          alreadyDeployedEnv.preCheck).2) ∧
    (∀ a ∈ (deploySafe alreadyDeployedEnv { isSafeDeployed := false, approvals := [] }).2.2,
      a = Action.fetchDeployedCheck ∨ a = Action.chainCodeCheck) ∧
    (deploySafe alreadyDeployedEnv
      { isSafeDeployed := false, approvals := [] }).2.1.isSafeDeployed = true ∧
    deploySafe alreadyDeployedEnv
        (deploySafe alreadyDeployedEnv { isSafeDeployed := false, approvals := [] }).2.1 =
      deploySafe alreadyDeployedEnv { isSafeDeployed := false, approvals := [] } :=
  deploySafe_idempotent alreadyDeployedEnv { isSafeDeployed := false, approvals := [] }
    rfl rfl rfl rfl rfl

/-- C10: once deploySafe has submitted the deploy request and obtained a
transaction id, it completes successfully with the deployed flag true for
every possible poll behaviour and every result of the final deployment
re-check — it never concludes failure after a successful submission. -/
theorem deploySafe_submitted_success (env : DeploySafeEnv) (st : SafeState) (txId : Nat)
    (hs : env.hasSigner = true) (ha : env.hasAddress = true)
    (hsa : env.hasSafeAddress = true) (hf : env.hasFactory = true)
    (hpre : (checkSafeDeployedRun env.hasSafeAddress env.preCheck).1 = false)
    (hsign : env.signOk = true)
    (hpost : env.postResp = PostResp.okResp (some txId)) :
    (deploySafe env st).1 = Except.ok () ∧
    (deploySafe env st).2.1.isSafeDeployed = true := by
  unfold deploySafe
  rw [hs, ha, hsa, hf]
  rw [hsa] at hpre
  rw [hpre, hsign, hpost]
  simp

/-- Witness for `deploySafe_submitted_success`: submission id 7, every poll
answers STATE_PENDING (timeout) and the re-check still reports not deployed;
deploySafe still reports success with the deployed flag true. -/
theorem deploySafe_submitted_success_witness :
    (deploySafe submittedButUnconfirmedEnv { isSafeDeployed := false, approvals := [] }).1 =
      Except.ok () ∧
    (deploySafe submittedButUnconfirmedEnv
      { isSafeDeployed := false, approvals := [] }).2.1.isSafeDeployed = true :=
  deploySafe_submitted_success submittedButUnconfirmedEnv
    { isSafeDeployed := false, approvals := [] } 7 rfl rfl rfl rfl rfl rfl rfl

/-- Amended C5: when the deployed flag is set and the filtered
unsatisfied-approvals subset is empty, approveAll returns immediately:
success, state unchanged, and no signing or network action at all. When the
flag is unset, approveAll first runs the deployment — even with nothing to
approve — as the counterexample shows. -/
theorem approveAll_nothing_to_do (env : ApproveAllEnv) (st : SafeState)
    (hdep : st.isSafeDeployed = true)
    (hpending : st.approvals.filter (fun a => !a.approved) = []) :
    approveAll env st = (Except.ok (), st, []) := by
  unfold approveAll
  rw [hdep]
  by_cases hg : (env.hasSigner && env.hasAddress && env.hasSafeAddress) = true
  · rw [hg]
    simp [hpending]
  · rw [Bool.not_eq_true] at hg
    rw [hg]
    simp

/-- Witness for `approveAll_nothing_to_do`: deployed wallet, all approvals
satisfied — approveAll is an immediate successful no-op. -/
theorem approveAll_nothing_to_do_witness :
    approveAll cexApproveAllEnv { isSafeDeployed := true, approvals := cexApprovalsAllSet } =
      (Except.ok (), { isSafeDeployed := true, approvals := cexApprovalsAllSet }, []) :=
  approveAll_nothing_to_do cexApproveAllEnv
    { isSafeDeployed := true, approvals := cexApprovalsAllSet } rfl rfl

/-- Counterexample to C5 as stated: with every approval already satisfied but
the deployed flag unset, approveAll does not return before acting — it signs
the CreateProxy message and submits a deploy request first. -/
theorem approveAll_deploys_anyway_cex :
    cexStateNotDeployed.approvals.filter (fun a => !a.approved) = [] ∧
    Action.signDeploy ∈ (approveAll cexApproveAllEnv cexStateNotDeployed).2.2 ∧
    Action.postDeploy ∈ (approveAll cexApproveAllEnv cexStateNotDeployed).2.2 := by
  refine ⟨rfl, ?_, ?_⟩ <;> decide

/-- C7: in any approveAll run that fetched nonce N and signed, the SafeTx
struct handed to the signer carries nonce N and the payload POSTed to the
execute endpoint carries the same N as a decimal string (a JSON string, not a
number) — the submission and the signed struct share the freshly fetched
nonce. -/
theorem approveAll_nonce_propagation (env : ApproveAllEnv) (st : SafeState)
    (n r s v : Nat)
    (hg : (env.hasSigner && env.hasAddress && env.hasSafeAddress) = true)
    (hdep : st.isSafeDeployed = true)
    (hpending : ¬ st.approvals.filter (fun a => !a.approved) = [])
    (hnonce : env.nonceResp = Except.ok n)
    (hsign : env.signResp = Except.ok (r, s, v)) :
    Action.signSafeTx (buildSafeTx (aggregateTransactions
        ((st.approvals.filter (fun a => !a.approved)).map buildApprovalTx)) n)
      ∈ (approveAll env st).2.2 ∧
    Action.postExecute (buildExecutePayload env.ownerAddress env.safeAddress
        (aggregateTransactions
          ((st.approvals.filter (fun a => !a.approved)).map buildApprovalTx))
        (toString n) (packSignature r s v)) ∈ (approveAll env st).2.2 ∧
    (buildSafeTx (aggregateTransactions
        ((st.approvals.filter (fun a => !a.approved)).map buildApprovalTx)) n).nonce = n ∧
    (buildExecutePayload env.ownerAddress env.safeAddress
        (aggregateTransactions
          ((st.approvals.filter (fun a => !a.approved)).map buildApprovalTx))
        (toString n) (packSignature r s v)).nonce = JsonValue.str (toString n) := by
  have hsub : ∀ x ∈ approveAllBaseActions env st n r s v, x ∈ (approveAll env st).2.2 := by
    intro x hx
    unfold approveAll
    rw [hg, hdep]
    simp only [Bool.not_true, Bool.false_eq_true, if_false, if_true]
    cases hexec : env.execResp with
    | okResp txId =>
      cases txId with
      | none =>
        simp [hexec, hpending, hnonce, hsign]
        exact Or.inl hx
      | some t =>
        cases hout : (pollTransactionStatus env.pollRespond 40).1 with
        | success k =>
          simp [hexec, hout, hpending, hnonce, hsign]
          exact Or.inl hx
        | failedTx k =>
          simp [hexec, hout, hpending, hnonce, hsign]
          exact Or.inl hx
        | pollError k =>
          simp [hexec, hout, hpending, hnonce, hsign]
          exact Or.inl hx
        | timeout =>
          simp [hexec, hout, hpending, hnonce, hsign]
          exact Or.inl hx
    | netError =>
      simp [hexec, hpending, hnonce, hsign]
      exact hx
    | emptyBody =>
      simp [hexec, hpending, hnonce, hsign]
      exact hx
    | badJson =>
      simp [hexec, hpending, hnonce, hsign]
      exact hx
    | notOk =>
      simp [hexec, hpending, hnonce, hsign]
      exact hx
  refine ⟨hsub _ ?_, hsub _ ?_, rfl, rfl⟩ <;> simp [approveAllBaseActions]

/-- Witness for `approveAll_nonce_propagation`: one pending ERC20 approval,
nonce 0 fetched, signature (1, 2, 27). -/
theorem approveAll_nonce_propagation_witness :
    Action.signSafeTx (buildSafeTx (aggregateTransactions
        ((stOnePending.approvals.filter (fun a => !a.approved)).map buildApprovalTx)) 0)
      ∈ (approveAll cexApproveAllEnv stOnePending).2.2 ∧
    Action.postExecute (buildExecutePayload cexApproveAllEnv.ownerAddress
        cexApproveAllEnv.safeAddress
        (aggregateTransactions
          ((stOnePending.approvals.filter (fun a => !a.approved)).map buildApprovalTx))
        (toString 0) (packSignature 1 2 27)) ∈ (approveAll cexApproveAllEnv stOnePending).2.2 ∧
    (buildSafeTx (aggregateTransactions
        ((stOnePending.approvals.filter (fun a => !a.approved)).map buildApprovalTx)) 0).nonce = 0 ∧
    (buildExecutePayload cexApproveAllEnv.ownerAddress cexApproveAllEnv.safeAddress
        (aggregateTransactions
          ((stOnePending.approvals.filter (fun a => !a.approved)).map buildApprovalTx))
        (toString 0) (packSignature 1 2 27)).nonce = JsonValue.str (toString 0) :=
  approveAll_nonce_propagation cexApproveAllEnv stOnePending 0 1 2 27
    rfl rfl (by decide) rfl rfl

/-- C9: an ERC20 entry of the approval report is satisfied iff the allowance
read for its spender is nonzero — any positive allowance, however small,
counts as approved and is excluded from the pending batch. -/
theorem checkApprovals_erc20_nonzero (e : AllowanceEnv) :
    ∀ a ∈ mkApprovalStatuses e, a.type = TokenType.erc20 →
      ((a.approved = true ↔ allowanceOf e a.spender ≠ 0) ∧
       (allowanceOf e a.spender ≠ 0 →
         a ∉ (mkApprovalStatuses e).filter (fun x => !x.approved))) := by
  intro a ha hty
  simp only [mkApprovalStatuses, List.mem_cons, List.not_mem_nil, or_false] at ha
  rcases ha with rfl | rfl | rfl | rfl | rfl | rfl | rfl
  · refine ⟨?_, fun hnz hmem2 => ?_⟩
    · simp [allowanceOf, bne_iff_ne]
    · rw [List.mem_filter] at hmem2
      simp [allowanceOf] at hnz
      simp [hnz] at hmem2
  · refine ⟨?_, fun hnz hmem2 => ?_⟩
    · simp [allowanceOf, CTF, CTF_EXCHANGE, bne_iff_ne]
    · rw [List.mem_filter] at hmem2
      simp [allowanceOf, CTF, CTF_EXCHANGE] at hnz
      simp [hnz] at hmem2
  · refine ⟨?_, fun hnz hmem2 => ?_⟩
    · simp [allowanceOf, CTF, CTF_EXCHANGE, NEG_RISK_CTF_EXCHANGE, bne_iff_ne]
    · rw [List.mem_filter] at hmem2
      simp [allowanceOf, CTF, CTF_EXCHANGE, NEG_RISK_CTF_EXCHANGE] at hnz
      simp [hnz] at hmem2
  · refine ⟨?_, fun hnz hmem2 => ?_⟩
    · simp [allowanceOf, CTF, CTF_EXCHANGE, NEG_RISK_CTF_EXCHANGE, NEG_RISK_ADAPTER,
        bne_iff_ne]
    · rw [List.mem_filter] at hmem2
      simp [allowanceOf, CTF, CTF_EXCHANGE, NEG_RISK_CTF_EXCHANGE, NEG_RISK_ADAPTER] at hnz
      simp [hnz] at hmem2
  · simp at hty
  · simp at hty
  · simp at hty

/-- Witness for `checkApprovals_erc20_nonzero`: a 1-unit allowance (far below
the max allowance approveAll would grant) marks the USDC-to-CTF entry
approved and keeps it out of the pending batch. -/
theorem checkApprovals_erc20_nonzero_witness :
    (sampleErc20Entry.approved = true ↔
      allowanceOf tinyAllowanceEnv sampleErc20Entry.spender ≠ 0) ∧
    (allowanceOf tinyAllowanceEnv sampleErc20Entry.spender ≠ 0 →
      sampleErc20Entry ∉
        (mkApprovalStatuses tinyAllowanceEnv).filter (fun x => !x.approved)) :=
  checkApprovals_erc20_nonzero tinyAllowanceEnv sampleErc20Entry (by decide) rfl

/-- Amended C8: errors raised inside deploySafe's signing and submission
steps, and inside approveAll's nonce-fetch, signing, submission and polling
steps, propagate to the caller; but checkApprovals catches its internal
errors and completes normally with the approvals unchanged, and
checkSafeDeployed converts its internal errors into a fallback `false` answer
rather than raising. -/
theorem errorPropagation :
    (∀ (env : DeploySafeEnv) (st : SafeState),
      (env.hasSigner && env.hasAddress && env.hasSafeAddress && env.hasFactory) = true →
      (checkSafeDeployedRun env.hasSafeAddress env.preCheck).1 = false →
      env.signOk = false → (deploySafe env st).1 = Except.error ()) ∧
    (∀ (env : DeploySafeEnv) (st : SafeState),
      (env.hasSigner && env.hasAddress && env.hasSafeAddress && env.hasFactory) = true →
      (checkSafeDeployedRun env.hasSafeAddress env.preCheck).1 = false →
      env.signOk = true → env.postResp = PostResp.netError →
      (deploySafe env st).1 = Except.error ()) ∧
    (∀ (env : ApproveAllEnv) (st : SafeState),
      (env.hasSigner && env.hasAddress && env.hasSafeAddress) = true →
      st.isSafeDeployed = true →
      ¬ st.approvals.filter (fun a => !a.approved) = [] →
      env.nonceResp = Except.error () → (approveAll env st).1 = Except.error ()) ∧
    (∀ (env : ApproveAllEnv) (st : SafeState) (n : Nat),
      (env.hasSigner && env.hasAddress && env.hasSafeAddress) = true →
      st.isSafeDeployed = true →
      ¬ st.approvals.filter (fun a => !a.approved) = [] →
      env.nonceResp = Except.ok n → env.signResp = Except.error () →
      (approveAll env st).1 = Except.error ()) ∧
    (∀ (env : ApproveAllEnv) (st : SafeState) (n r s v : Nat),
      (env.hasSigner && env.hasAddress && env.hasSafeAddress) = true →
      st.isSafeDeployed = true →
      ¬ st.approvals.filter (fun a => !a.approved) = [] →
      env.nonceResp = Except.ok n → env.signResp = Except.ok (r, s, v) →
      env.execResp = PostResp.netError → (approveAll env st).1 = Except.error ()) ∧
    (∀ (env : ApproveAllEnv) (st : SafeState) (n r s v tid : Nat),
      (env.hasSigner && env.hasAddress && env.hasSafeAddress) = true →
      st.isSafeDeployed = true →
      ¬ st.approvals.filter (fun a => !a.approved) = [] →
      env.nonceResp = Except.ok n → env.signResp = Except.ok (r, s, v) →
      env.execResp = PostResp.okResp (some tid) →
      (pollTransactionStatus env.pollRespond 40).1 = PollOutcome.timeout →
      (approveAll env st).1 = Except.error ()) ∧
    (∀ (env : CheckApprovalsEnv) (st : SafeState),
      (env.hasProvider && env.hasSafeAddress) = true →
      checkApprovalsBody env = Except.error () →
      checkApprovals env st = (Except.ok (), st, [Action.fetchAllowances])) ∧
    (∀ env : CheckDeployedEnv,
      env.relayResp = Except.error () → env.hasProvider = true →
      env.codeResp = Except.error () →
      checkSafeDeployedRun true env = (false,
        [Action.fetchDeployedCheck, Action.chainCodeCheck])) := by
  refine ⟨?_, ?_, ?_, ?_, ?_, ?_, ?_, ?_⟩
  · intro env st hg hpre hsign
    unfold deploySafe
    rw [hg, hpre, hsign]
    simp
  · intro env st hg hpre hsign hpost
    unfold deploySafe
    rw [hg, hpre, hsign, hpost]
    simp
  · intro env st hg hdep hpending hnonce
    unfold approveAll
    rw [hg, hdep]
    simp [hpending, hnonce]
  · intro env st n hg hdep hpending hnonce hsign
    unfold approveAll
    rw [hg, hdep]
    simp [hpending, hnonce, hsign]
  · intro env st n r s v hg hdep hpending hnonce hsign hexec
    unfold approveAll
    rw [hg, hdep]
    simp [hpending, hnonce, hsign, hexec]
  · intro env st n r s v tid hg hdep hpending hnonce hsign hexec hpoll
    unfold approveAll
    rw [hg, hdep]
    simp [hpending, hnonce, hsign, hexec, hpoll]
  · intro env st hg hbody
    unfold checkApprovals
    rw [hg, hbody]
    simp
  · intro env hrelay hprov hcode
    unfold checkSafeDeployedRun
    rw [hrelay, hprov, hcode]
    simp

/-- Witness for `errorPropagation`: a declined deploy signature propagates as
an error, while failing approval reads leave checkApprovals completing
normally. -/
theorem errorPropagation_witness :
    (deploySafe signDeclineDeployEnv { isSafeDeployed := false, approvals := [] }).1 =
      Except.error () ∧
    checkApprovals failingReadsEnv { isSafeDeployed := true, approvals := [] } =
      (Except.ok (), { isSafeDeployed := true, approvals := [] },
        [Action.fetchAllowances]) :=
  ⟨errorPropagation.1 signDeclineDeployEnv { isSafeDeployed := false, approvals := [] }
      rfl rfl rfl,
   errorPropagation.2.2.2.2.2.2.1 failingReadsEnv { isSafeDeployed := true, approvals := [] }
      rfl rfl⟩

/-- Counterexample to C8 as stated: checkApprovals' on-chain reads throw (its
try body fails), yet the operation completes normally — the error is caught,
logged and discarded, and the cached approvals are left unchanged. -/
theorem errorSwallowed_cex :
    checkApprovalsBody failingReadsEnv = Except.error () ∧
    (checkApprovals failingReadsEnv { isSafeDeployed := true, approvals := [] }).1 =
      Except.ok () ∧
    (checkApprovals failingReadsEnv { isSafeDeployed := true, approvals := [] }).2.1 =
      { isSafeDeployed := true, approvals := [] } :=
  ⟨rfl, rfl, rfl⟩

end SafeContext


